import Mathlib

/-!
# Verification of the STM32 GPIO EXTI subscription driver

Shallow embedding of `Firmware/Drivers/STM32/stm32_gpio.cpp`: the EXTI line
ownership table (`subscriptions`), `Stm32Gpio::subscribe`,
`Stm32Gpio::unsubscribe`, the dispatcher `maybe_handle` and the interrupt
entry points `EXTI*_IRQHandler`.

Modelling conventions:
- Pointers (`GPIO_TypeDef*`, callback function pointers) become `Option Nat`
  (`none` = `nullptr`, `some i` = a concrete non-null pointer identity).
- The `void* ctx` pointer becomes a plain `Nat` with `0` playing `nullptr`.
- 32-bit registers become `Nat`; `x & ~m` on `uint32_t` becomes
  `x &&& compl32 m` with `compl32 m = (2^32 - 1) ^^^ m`.
- `__HAL_GPIO_EXTI_CLEAR_IT(m)` writes `m` to the write-one-to-clear pending
  register `EXTI->PR`; its observable effect is clearing the bits of `m`.
- `__HAL_GPIO_EXTI_GET_IT(m) == RESET` is `EXTI->PR &&& m = 0`.
- The sequenced register/slot writes of the successful `subscribe` path are
  kept as a list of primitive actions (`subscribeActions`), one per source
  statement and in source order, so that statement-ordering properties can be
  proved about the intermediate states; `subscribe` itself folds the list.
-/

/-- Source macro `#define N_EXTI 16` (stm32_gpio.cpp line 4). -/
def N_EXTI : Nat := 16

/-- One slot of the global `subscriptions[N_EXTI]` table
(stm32_gpio.cpp lines 6-10).  `port = none` models `port == nullptr`
(the slot is free), `callback = none` models a null callback pointer,
and `ctx = 0` models a null context pointer. -/
structure subscription_t where
  port : Option Nat
  callback : Option Nat
  ctx : Nat
deriving DecidableEq, Repr

/-- The pin handle.  Modelled from the spec: the header `stm32_gpio.hpp` is
not part of the sources, and per the spec a pin handle is an immutable
(port, bit position) pair whose EXTI line number equals the bit position and
whose `pin_mask_` is the single bit at that position.  `port = none` models
the sentinel `Stm32Gpio::none` handle with a null port. -/
structure Stm32Gpio where
  port : Option Nat
  pin_number : Nat
deriving DecidableEq, Repr

/-- Field `pin_mask_`: the single-bit mask of the pin (modelled from the spec:
bit position selects the EXTI line, so the mask is `1 << pin_number`). -/
def Stm32Gpio.pin_mask (gpio : Stm32Gpio) : Nat := 1 <<< gpio.pin_number

/-- Method `get_pin_number()`: the pin's bit position (modelled from the spec:
the EXTI line number equals the bit position). -/
def Stm32Gpio.get_pin_number (gpio : Stm32Gpio) : Nat := gpio.pin_number

/-- Macro `GPIO_GET_INDEX(port)`: the numeric index of a GPIO port (HAL macro,
external to the sources); on our abstract port identities it is the
identity, with 0 for a null port. -/
def GPIO_GET_INDEX (port : Option Nat) : Nat := port.getD 0

/-- The EXTI peripheral registers touched by the driver. -/
structure ExtiRegs where
  imr : Nat
  emr : Nat
  rtsr : Nat
  ftsr : Nat
  pr : Nat
deriving DecidableEq, Repr

/-- The complete mutable state the driver touches: the global
`subscriptions` table (indexed by EXTI line number), the four
`SYSCFG->EXTICR` routing registers and the EXTI registers. -/
structure GpioState where
  subs : Nat → subscription_t
  exticr : Nat → Nat
  exti : ExtiRegs

/-- Bitwise complement within a 32-bit word: `~m` on `uint32_t`. -/
def compl32 (m : Nat) : Nat := (2 ^ 32 - 1) ^^^ m

/-- Overwrite one slot of the `subscriptions` table. -/
def GpioState.setSlot (s : GpioState) (n : Nat) (slot : subscription_t) : GpioState :=
  { s with subs := Function.update s.subs n slot }

/-- Macro `__HAL_GPIO_EXTI_CLEAR_IT(mask)`: write-one-to-clear of the EXTI
pending register; clears exactly the bits of `mask`
(used at stm32_gpio.cpp lines 154, 174, 188). -/
def clearPendingIt (s : GpioState) (mask : Nat) : GpioState :=
  { s with exti := { s.exti with pr := s.exti.pr &&& compl32 mask } }

/-- The successful `__atomic_compare_exchange_n(&subscription.port, &no_port,
port_, ...)`: the slot's `port` field becomes the caller's port
(stm32_gpio.cpp line 126; the failure case is handled in `subscribe`). -/
def casClaim (gpio : Stm32Gpio) (s : GpioState) : GpioState :=
  s.setSlot gpio.pin_number { s.subs gpio.pin_number with port := gpio.port }

/-- The `SYSCFG->EXTICR[pin_number >> 2]` update routing the line to the
subscribing port (stm32_gpio.cpp lines 133-136). -/
def writeExticr (gpio : Stm32Gpio) (s : GpioState) : GpioState :=
  let n := gpio.pin_number
  let temp := s.exticr (n >>> 2)
  let temp := temp &&& compl32 (0xF <<< (4 * (n &&& 0x3)))
  let temp := temp ||| (GPIO_GET_INDEX gpio.port <<< (4 * (n &&& 0x3)))
  { s with exticr := Function.update s.exticr (n >>> 2) temp }

/-- Statement `EXTI->RTSR |= mask` / `EXTI->RTSR &= ~mask` depending on `rising_edge`
(stm32_gpio.cpp lines 138-142). -/
def writeRtsr (gpio : Stm32Gpio) (rising_edge : Bool) (s : GpioState) : GpioState :=
  if rising_edge then
    { s with exti := { s.exti with rtsr := s.exti.rtsr ||| gpio.pin_mask } }
  else
    { s with exti := { s.exti with rtsr := s.exti.rtsr &&& compl32 gpio.pin_mask } }

/-- Statement `EXTI->FTSR |= mask` / `EXTI->FTSR &= ~mask` depending on `falling_edge`
(stm32_gpio.cpp lines 144-148). -/
def writeFtsr (gpio : Stm32Gpio) (falling_edge : Bool) (s : GpioState) : GpioState :=
  if falling_edge then
    { s with exti := { s.exti with ftsr := s.exti.ftsr ||| gpio.pin_mask } }
  else
    { s with exti := { s.exti with ftsr := s.exti.ftsr &&& compl32 gpio.pin_mask } }

/-- Statement `EXTI->EMR &= ~mask` (stm32_gpio.cpp line 150). -/
def clearEmr (gpio : Stm32Gpio) (s : GpioState) : GpioState :=
  { s with exti := { s.exti with emr := s.exti.emr &&& compl32 gpio.pin_mask } }

/-- Statement `EXTI->IMR |= mask` (stm32_gpio.cpp line 151). -/
def setImr (gpio : Stm32Gpio) (s : GpioState) : GpioState :=
  { s with exti := { s.exti with imr := s.exti.imr ||| gpio.pin_mask } }

/-- Statement `subscription.ctx = ctx` (stm32_gpio.cpp line 156). -/
def storeCtx (gpio : Stm32Gpio) (ctx : Nat) (s : GpioState) : GpioState :=
  s.setSlot gpio.pin_number { s.subs gpio.pin_number with ctx := ctx }

/-- Statement `subscription.callback = callback` (stm32_gpio.cpp line 157). -/
def storeCallback (gpio : Stm32Gpio) (callback : Option Nat) (s : GpioState) : GpioState :=
  s.setSlot gpio.pin_number { s.subs gpio.pin_number with callback := callback }

/-- The straight-line statements executed by `Stm32Gpio::subscribe` after the
compare-exchange succeeded, one action per source statement, in source order
(stm32_gpio.cpp lines 131-157). -/
def subscribeActions (gpio : Stm32Gpio) (rising_edge falling_edge : Bool)
    (callback : Option Nat) (ctx : Nat) : List (GpioState → GpioState) :=
  [writeExticr gpio,
   writeRtsr gpio rising_edge,
   writeFtsr gpio falling_edge,
   clearEmr gpio,
   setImr gpio,
   fun s => clearPendingIt s gpio.pin_mask,
   storeCtx gpio ctx,
   storeCallback gpio callback]

/-- Run a list of state actions in order. -/
def runActs (s : GpioState) (acts : List (GpioState → GpioState)) : GpioState :=
  acts.foldl (fun st f => f st) s

/-- Method `Stm32Gpio::subscribe` (stm32_gpio.cpp lines 117-159): fails on an
out-of-range line or when the compare-exchange on the slot's `port` finds it
non-null; otherwise claims the slot and runs the configuration statements in
source order. -/
def subscribe (s : GpioState) (gpio : Stm32Gpio) (rising_edge falling_edge : Bool)
    (callback : Option Nat) (ctx : Nat) : Bool × GpioState :=
  if gpio.pin_number ≥ N_EXTI then
    (false, s)
  else if (s.subs gpio.pin_number).port ≠ none then
    (false, s)
  else
    (true, runActs (casClaim gpio s) (subscribeActions gpio rising_edge falling_edge callback ctx))

/-- The intermediate state of a successful `Stm32Gpio::subscribe` after the
compare-exchange and the first `k` of the eight subsequent statements: the
state the interrupt dispatcher would observe if it preempted `subscribe`
at that point. -/
def subscribePrefix (s : GpioState) (gpio : Stm32Gpio) (rising_edge falling_edge : Bool)
    (callback : Option Nat) (ctx : Nat) (k : Nat) : GpioState :=
  runActs (casClaim gpio s) ((subscribeActions gpio rising_edge falling_edge callback ctx).take k)

/-- Method `Stm32Gpio::unsubscribe` (stm32_gpio.cpp lines 161-181): no-op on an
out-of-range line or when the slot's owner is not this pin's port; otherwise
executes `EXTI->IMR |= pin_mask_` (note: the source sets the bit),
clears the pending flag, then nulls `callback`, `ctx` and `port`
(in that source order; the slot ends all-null). -/
def unsubscribe (s : GpioState) (gpio : Stm32Gpio) : GpioState :=
  if gpio.pin_number ≥ N_EXTI then
    s
  else if (s.subs gpio.pin_number).port ≠ gpio.port then
    s
  else
    let s1 := { s with exti := { s.exti with imr := s.exti.imr ||| gpio.pin_mask } }
    let s2 := clearPendingIt s1 gpio.pin_mask
    s2.setSlot gpio.pin_number { port := none, callback := none, ctx := 0 }

/-- Observable events of one dispatcher run: which lines were polled
(one `polled n` per `maybe_handle(n)` call) and which callbacks were
invoked (`invoked line cb ctx` for `(*subscription.callback)(subscription.ctx)`). -/
inductive DispatchEvent where
  | polled (line : Nat)
  | invoked (line : Nat) (cb : Nat) (ctx : Nat)
deriving DecidableEq, Repr

/-- Dispatcher `maybe_handle` (stm32_gpio.cpp lines 183-198): if the line's pending bit
is clear, return untouched; else clear the pending bit, bound-check the line
number, and invoke the slot's callback with its context if one is bound. -/
def maybe_handle (s : GpioState) (exti_number : Nat) : GpioState × List DispatchEvent :=
  if s.exti.pr &&& (1 <<< exti_number) = 0 then
    (s, [.polled exti_number])
  else
    let s1 := clearPendingIt s (1 <<< exti_number)
    if exti_number ≥ N_EXTI then
      (s1, [.polled exti_number])
    else
      match (s1.subs exti_number).callback with
      | some cb => (s1, [.polled exti_number, .invoked exti_number cb (s1.subs exti_number).ctx])
      | none => (s1, [.polled exti_number])

/-- Run `maybe_handle` on a list of lines in order, accumulating events. -/
def runLines (s : GpioState) : List Nat → GpioState × List DispatchEvent
  | [] => (s, [])
  | n :: rest =>
    let r := maybe_handle s n
    let rr := runLines r.1 rest
    (rr.1, r.2 ++ rr.2)

/-- Entry point `EXTI0_IRQHandler` (stm32_gpio.cpp lines 203-205). -/
def EXTI0_IRQHandler (s : GpioState) : GpioState × List DispatchEvent := runLines s [0]

/-- Entry point `EXTI1_IRQHandler` (stm32_gpio.cpp lines 208-210). -/
def EXTI1_IRQHandler (s : GpioState) : GpioState × List DispatchEvent := runLines s [1]

/-- Entry point `EXTI2_IRQHandler` (stm32_gpio.cpp lines 213-215). -/
def EXTI2_IRQHandler (s : GpioState) : GpioState × List DispatchEvent := runLines s [2]

/-- Entry point `EXTI3_IRQHandler` (stm32_gpio.cpp lines 218-220). -/
def EXTI3_IRQHandler (s : GpioState) : GpioState × List DispatchEvent := runLines s [3]

/-- Entry point `EXTI4_IRQHandler` (stm32_gpio.cpp lines 223-225). -/
def EXTI4_IRQHandler (s : GpioState) : GpioState × List DispatchEvent := runLines s [4]

/-- Entry point `EXTI9_5_IRQHandler` (stm32_gpio.cpp lines 228-234): polls lines 5-9. -/
def EXTI9_5_IRQHandler (s : GpioState) : GpioState × List DispatchEvent :=
  runLines s [5, 6, 7, 8, 9]

/-- Entry point `EXTI15_10_IRQHandler` (stm32_gpio.cpp lines 237-244): polls lines 10-15. -/
def EXTI15_10_IRQHandler (s : GpioState) : GpioState × List DispatchEvent :=
  runLines s [10, 11, 12, 13, 14, 15]

/-- The lines polled during a dispatcher run, in order. -/
def polledLines (log : List DispatchEvent) : List Nat :=
  log.filterMap fun e => match e with
    | .polled n => some n
    | .invoked _ _ _ => none

/-- The callback invocations of a dispatcher run, in order:
`(line, callback, context)` triples. -/
def invokedCalls (log : List DispatchEvent) : List (Nat × Nat × Nat) :=
  log.filterMap fun e => match e with
    | .polled _ => none
    | .invoked n cb ctx => some (n, cb, ctx)

/-- A hardware edge event on line `n`: the EXTI peripheral latches the
line's pending bit (spec §4.3/§8 "simulated event"; the driver itself never
sets `PR` bits). -/
def hwEvent (s : GpioState) (n : Nat) : GpioState :=
  { s with exti := { s.exti with pr := s.exti.pr ||| (1 <<< n) } }

/-- The operations that can occur after an `unsubscribe` without a new
`subscribe`: hardware edge events and dispatcher runs. -/
inductive GpioOp where
  | event (n : Nat)
  | dispatch (n : Nat)
deriving DecidableEq, Repr

/-- Run a sequence of hardware events and dispatches, accumulating the
dispatchers' event logs. -/
def runOps (s : GpioState) : List GpioOp → GpioState × List DispatchEvent
  | [] => (s, [])
  | .event n :: ops => runOps (hwEvent s n) ops
  | .dispatch n :: ops =>
    let r := maybe_handle s n
    let rest := runOps r.1 ops
    (rest.1, r.2 ++ rest.2)

/-- The all-free start-up state of the driver: the `subscriptions` table is
zero-initialized and the EXTI registers are taken as given. -/
def initState (regs : ExtiRegs) (cr : Nat → Nat) : GpioState :=
  { subs := fun _ => { port := none, callback := none, ctx := 0 },
    exticr := cr,
    exti := regs }

/-! ## Sample states and pins for the concrete witnesses -/

/-- Arbitrary nonzero register content for witness states. -/
def sampleRegs : ExtiRegs := { imr := 5, emr := 6, rtsr := 7, ftsr := 8, pr := 9 }

/-- All-free start-up state with `sampleRegs`. -/
def sampleState : GpioState := initState sampleRegs (fun _ => 0)

/-- Pin PA3: port A (index 0), line 3. -/
def pinA3 : Stm32Gpio := { port := some 0, pin_number := 3 }

/-- Pin PB3: port B (index 1), also aliasing line 3. -/
def pinB3 : Stm32Gpio := { port := some 1, pin_number := 3 }

/-- A handle whose line number 16 is out of range. -/
def pin16 : Stm32Gpio := { port := some 0, pin_number := 16 }

/-- State after PA3 successfully subscribed on `sampleState`. -/
def subscribedA3 : GpioState := (subscribe sampleState pinA3 true false (some 42) 7).2

/-- Event/dispatch sequence used by the C3 witness: two edges on line 3,
each followed by the dispatcher's run for line 3. -/
def opsSample : List GpioOp :=
  [.event 3, .dispatch 3, .event 3, .dispatch 3]

/-- Pin PC7: port C (index 2), line 7, used by the C7 witness. -/
def pinC7 : Stm32Gpio := { port := some 2, pin_number := 7 }

/-- State with PC7 subscribed and a hardware edge latched on line 7 only
(among the 5-9 group), used by the C7 witness. -/
def stateC7 : GpioState :=
  hwEvent (subscribe sampleState pinC7 true false (some 55) 11).2 7

/-- Pin PD12: port D (index 3), line 12, used by the C7 witness. -/
def pinD12 : Stm32Gpio := { port := some 3, pin_number := 12 }

/-- State with PD12 subscribed and a hardware edge latched on line 12 only
(among the 10-15 group), used by the C7 witness. -/
def stateC12 : GpioState :=
  hwEvent (subscribe sampleState pinD12 false true (some 66) 13).2 12

/-! ## Bit-manipulation helpers -/

/-- Testing `x & (1 << n) == 0` is exactly "bit `n` of `x` is clear". -/
lemma and_shift_eq_zero_iff (x n : Nat) : x &&& (1 <<< n) = 0 ↔ x.testBit n = false := by
  rw [Nat.one_shiftLeft, Nat.and_two_pow]
  cases h : x.testBit n
  · simp
  · simp [(by positivity : (0:ℕ) < 2 ^ n).ne']

/-- Bits of the 32-bit complement, below bit 32. -/
lemma testBit_compl32 (m i : Nat) (h : i < 32) : (compl32 m).testBit i = !m.testBit i := by
  rw [compl32, Nat.testBit_xor, Nat.testBit_two_pow_sub_one]
  simp [h]

lemma testBit_and_compl32_self (x n : Nat) (h : n < 32) :
    (x &&& compl32 (1 <<< n)).testBit n = false := by
  rw [Nat.testBit_and, testBit_compl32 _ _ h, Nat.one_shiftLeft, Nat.testBit_two_pow_self]
  simp

lemma testBit_and_compl32_of_ne (x n m : Nat) (h : m ≠ n) (hm : m < 32) :
    (x &&& compl32 (1 <<< n)).testBit m = x.testBit m := by
  rw [Nat.testBit_and, testBit_compl32 _ _ hm, Nat.one_shiftLeft,
    Nat.testBit_two_pow_of_ne (fun hh => h hh.symm)]
  simp

lemma testBit_or_shift_self (x n : Nat) : (x ||| 1 <<< n).testBit n = true := by
  rw [Nat.testBit_or, Nat.one_shiftLeft, Nat.testBit_two_pow_self]
  simp

lemma testBit_or_shift_of_ne (x n m : Nat) (h : m ≠ n) :
    (x ||| 1 <<< n).testBit m = x.testBit m := by
  rw [Nat.testBit_or, Nat.one_shiftLeft, Nat.testBit_two_pow_of_ne (fun hh => h hh.symm)]
  simp

lemma lor_lor_self (x m : Nat) : (x ||| m) ||| m = x ||| m := by
  apply Nat.eq_of_testBit_eq
  intro i
  simp [Nat.testBit_or, Bool.or_assoc]

lemma land_land_self (x m : Nat) : (x &&& m) &&& m = x &&& m := by
  apply Nat.eq_of_testBit_eq
  intro i
  simp [Nat.testBit_and, Bool.and_assoc]

/-! ## Characterization of the subscribe/unsubscribe paths -/

/-- The compare-exchange fails whenever the slot's `port` is non-null:
`subscribe` then returns `false` without touching any state. -/
lemma subscribe_of_port_ne_none (s : GpioState) (g : Stm32Gpio) (r f : Bool)
    (cb : Option Nat) (c : Nat) (h : (s.subs g.pin_number).port ≠ none) :
    subscribe s g r f cb c = (false, s) := by
  by_cases hn : g.pin_number ≥ N_EXTI
  · simp [subscribe, hn]
  · simp [subscribe, hn, h]

/-- The success path of `subscribe` in terms of the action sequence. -/
lemma subscribe_of_free (s : GpioState) (g : Stm32Gpio) (r f : Bool)
    (cb : Option Nat) (c : Nat) (hn : ¬ g.pin_number ≥ N_EXTI)
    (hfree : (s.subs g.pin_number).port = none) :
    subscribe s g r f cb c =
      (true, runActs (casClaim g s) (subscribeActions g r f cb c)) := by
  simp [subscribe, hn, hfree]

/-- Closed form of the state after the successful `subscribe` path. -/
lemma runActs_subscribeActions (s : GpioState) (g : Stm32Gpio) (r f : Bool)
    (cb : Option Nat) (c : Nat) :
    runActs (casClaim g s) (subscribeActions g r f cb c) =
      { subs := Function.update s.subs g.pin_number
          { port := g.port, callback := cb, ctx := c },
        exticr := Function.update s.exticr (g.pin_number >>> 2)
          ((s.exticr (g.pin_number >>> 2) &&& compl32 (0xF <<< (4 * (g.pin_number &&& 0x3))))
            ||| (GPIO_GET_INDEX g.port <<< (4 * (g.pin_number &&& 0x3)))),
        exti := { imr := s.exti.imr ||| g.pin_mask,
                  emr := s.exti.emr &&& compl32 g.pin_mask,
                  rtsr := if r then s.exti.rtsr ||| g.pin_mask
                          else s.exti.rtsr &&& compl32 g.pin_mask,
                  ftsr := if f then s.exti.ftsr ||| g.pin_mask
                          else s.exti.ftsr &&& compl32 g.pin_mask,
                  pr := s.exti.pr &&& compl32 g.pin_mask } } := by
  cases r <;> cases f <;>
    simp [runActs, subscribeActions, writeExticr, writeRtsr, writeFtsr, clearEmr, setImr,
      clearPendingIt, storeCtx, storeCallback, casClaim, GpioState.setSlot,
      Function.update_idem, Function.update_same]

/-- Function `unsubscribe` is a no-op when the line is invalid or the slot's owner
differs from the pin's port. -/
lemma unsubscribe_noop (s : GpioState) (g : Stm32Gpio)
    (h : g.pin_number ≥ N_EXTI ∨ (s.subs g.pin_number).port ≠ g.port) :
    unsubscribe s g = s := by
  unfold unsubscribe
  rcases h with h | h
  · rw [if_pos h]
  · by_cases hn : g.pin_number ≥ N_EXTI
    · rw [if_pos hn]
    · rw [if_neg hn, if_pos h]

/-- Closed form of the active `unsubscribe` path. -/
lemma unsubscribe_active (s : GpioState) (g : Stm32Gpio)
    (hn : ¬ g.pin_number ≥ N_EXTI) (h : (s.subs g.pin_number).port = g.port) :
    unsubscribe s g =
      { subs := Function.update s.subs g.pin_number
          { port := none, callback := none, ctx := 0 },
        exticr := s.exticr,
        exti := { s.exti with imr := s.exti.imr ||| g.pin_mask,
                              pr := s.exti.pr &&& compl32 g.pin_mask } } := by
  unfold unsubscribe
  rw [if_neg hn, if_neg (by simp [h])]
  rfl

/-- The dispatcher never writes the subscription table. -/
lemma maybe_handle_subs (s : GpioState) (n : Nat) : (maybe_handle s n).1.subs = s.subs := by
  unfold maybe_handle
  split
  · rfl
  · split
    · rfl
    · cases hc : (s.subs n).callback <;> simp [clearPendingIt, hc]

/-- The dispatcher polls exactly its argument line. -/
lemma maybe_handle_polled (s : GpioState) (n : Nat) :
    polledLines (maybe_handle s n).2 = [n] := by
  unfold maybe_handle
  split
  · simp [polledLines]
  · split
    · simp [polledLines]
    · cases hc : (s.subs n).callback <;> simp [clearPendingIt, hc, polledLines]

/-- A line whose pending flag is clear makes `maybe_handle` a complete no-op. -/
lemma maybe_handle_not_pending (s : GpioState) (n : Nat)
    (h : s.exti.pr.testBit n = false) :
    maybe_handle s n = (s, [DispatchEvent.polled n]) := by
  unfold maybe_handle
  rw [if_pos ((and_shift_eq_zero_iff _ _).mpr h)]

/-- A pending line with a bound callback: the flag is cleared and exactly that
callback is invoked with the slot's context. -/
lemma maybe_handle_pending_cb (s : GpioState) (n : Nat) (cb : Nat)
    (hn : ¬ n ≥ N_EXTI) (hp : s.exti.pr.testBit n = true)
    (hcb : (s.subs n).callback = some cb) :
    maybe_handle s n =
      (clearPendingIt s (1 <<< n),
       [DispatchEvent.polled n, DispatchEvent.invoked n cb (s.subs n).ctx]) := by
  unfold maybe_handle
  rw [if_neg (by rw [and_shift_eq_zero_iff, hp]; simp), if_neg hn]
  have hsub : ((clearPendingIt s (1 <<< n)).subs n) = s.subs n := rfl
  rw [hsub, hcb]

/-- A slot with no bound callback never produces an invocation. -/
lemma maybe_handle_no_invoke (s : GpioState) (n : Nat)
    (h : (s.subs n).callback = none) :
    invokedCalls (maybe_handle s n).2 = [] := by
  unfold maybe_handle
  split
  · simp [invokedCalls]
  · split
    · simp [invokedCalls]
    · simp [clearPendingIt, h, invokedCalls]

/-- Any invocation produced by `maybe_handle s m` is on line `m`, with the
callback and context read from line `m`'s slot. -/
lemma invoked_mem_maybe_handle (s : GpioState) (m : Nat) (t : Nat × Nat × Nat)
    (ht : t ∈ invokedCalls (maybe_handle s m).2) :
    t.1 = m ∧ (s.subs m).callback = some t.2.1 ∧ (s.subs m).ctx = t.2.2 := by
  unfold maybe_handle at ht
  split at ht
  · simp [invokedCalls] at ht
  · split at ht
    · simp [invokedCalls] at ht
    · cases hc : (s.subs m).callback with
      | none =>
        simp [clearPendingIt, hc, invokedCalls] at ht
      | some cb =>
        simp [clearPendingIt, hc, invokedCalls] at ht
        rw [ht]
        refine ⟨rfl, ?_, rfl⟩
        simp [hc]

lemma invokedCalls_append (a b : List DispatchEvent) :
    invokedCalls (a ++ b) = invokedCalls a ++ invokedCalls b :=
  List.filterMap_append a b _

lemma polledLines_append (a b : List DispatchEvent) :
    polledLines (a ++ b) = polledLines a ++ polledLines b :=
  List.filterMap_append a b _

/-- A dispatcher run over a list of lines polls exactly those lines, in
order. -/
lemma polledLines_runLines (s : GpioState) (lines : List Nat) :
    polledLines (runLines s lines).2 = lines := by
  induction lines generalizing s with
  | nil => simp [runLines, polledLines]
  | cons n rest ih => simp [runLines, polledLines_append, maybe_handle_polled, ih]

/-- Once a line's callback is null, no sequence of hardware events and
dispatches (with no intervening `subscribe`) produces an invocation on that
line: events never touch the table and dispatches drop on a null callback. -/
lemma runOps_no_calls_on_dead_line (n : Nat) (ops : List GpioOp) (s : GpioState)
    (h : (s.subs n).callback = none) :
    ∀ t ∈ invokedCalls (runOps s ops).2, t.1 ≠ n := by
  induction ops generalizing s with
  | nil => simp [runOps, invokedCalls]
  | cons op ops ih =>
    cases op with
    | event m =>
      rw [show runOps s (.event m :: ops) = runOps (hwEvent s m) ops from rfl]
      exact ih (hwEvent s m) h
    | dispatch m =>
      intro t ht
      rw [show runOps s (.dispatch m :: ops) =
          ((runOps (maybe_handle s m).1 ops).1,
           (maybe_handle s m).2 ++ (runOps (maybe_handle s m).1 ops).2) from rfl] at ht
      rw [invokedCalls_append, List.mem_append] at ht
      rcases ht with ht | ht
      · obtain ⟨h1, h2, _⟩ := invoked_mem_maybe_handle s m t ht
        intro hn
        rw [hn] at h1
        rw [← h1, h] at h2
        cases h2
      · exact ih (maybe_handle s m).1 (by rw [maybe_handle_subs]; exact h) t ht

/-! ## Claim theorems -/

/-- C1: while a subscription is active on a line (a `subscribe` by a pin with
port `p` succeeded and no `unsubscribe` has run), every further `subscribe`
whose pin maps to the same line — from any port, including the same caller —
returns `false` with the state (in particular the slot's owner `p`)
unchanged. -/
theorem C1_line_exclusivity (s : GpioState) (g1 g2 : Stm32Gpio) (p : Nat)
    (r1 f1 r2 f2 : Bool) (cb1 cb2 : Option Nat) (c1 c2 : Nat)
    (hp : g1.port = some p)
    (hline : g2.pin_number = g1.pin_number)
    (hsucc : (subscribe s g1 r1 f1 cb1 c1).1 = true) :
    ((subscribe s g1 r1 f1 cb1 c1).2.subs g1.pin_number).port = some p ∧
    subscribe (subscribe s g1 r1 f1 cb1 c1).2 g2 r2 f2 cb2 c2 =
      (false, (subscribe s g1 r1 f1 cb1 c1).2) := by
  by_cases hn : g1.pin_number ≥ N_EXTI
  · rw [subscribe, if_pos hn] at hsucc
    cases hsucc
  by_cases hfree : (s.subs g1.pin_number).port = none
  · have h2 : (subscribe s g1 r1 f1 cb1 c1).2 =
        runActs (casClaim g1 s) (subscribeActions g1 r1 f1 cb1 c1) := by
      rw [subscribe_of_free s g1 r1 f1 cb1 c1 hn hfree]
    rw [h2]
    have hslot : ((runActs (casClaim g1 s) (subscribeActions g1 r1 f1 cb1 c1)).subs
        g1.pin_number).port = some p := by
      rw [runActs_subscribeActions]
      simp [Function.update_same, hp]
    refine ⟨hslot, ?_⟩
    apply subscribe_of_port_ne_none
    rw [hline, hslot]
    simp
  · rw [subscribe_of_port_ne_none s g1 r1 f1 cb1 c1 hfree] at hsucc
    cases hsucc

theorem C1_line_exclusivity_witness :
    pinA3.port = some 0 ∧ pinB3.pin_number = pinA3.pin_number ∧
    (subscribe sampleState pinA3 true false (some 42) 7).1 = true ∧
    (((subscribe sampleState pinA3 true false (some 42) 7).2.subs
        pinA3.pin_number).port = some 0 ∧
     subscribe (subscribe sampleState pinA3 true false (some 42) 7).2 pinB3
        true true (some 9) 1 =
       (false, (subscribe sampleState pinA3 true false (some 42) 7).2)) :=
  ⟨by decide, by decide, by decide,
   C1_line_exclusivity sampleState pinA3 pinB3 0 true false true true
     (some 42) (some 9) 7 1 (by decide) (by decide) (by decide)⟩

/-- C4: a pin whose computed line number lies outside 0-15 makes `subscribe`
return `false` immediately, with the whole state — every slot and every
EXTI/routing register — exactly unchanged. -/
theorem C4_subscribe_invalid_line_noop (s : GpioState) (g : Stm32Gpio)
    (r f : Bool) (cb : Option Nat) (c : Nat) (h : g.pin_number ≥ N_EXTI) :
    subscribe s g r f cb c = (false, s) := by
  rw [subscribe, if_pos h]

theorem C4_subscribe_invalid_line_noop_witness :
    pin16.pin_number ≥ N_EXTI ∧
    subscribe sampleState pin16 true false (some 1) 2 = (false, sampleState) :=
  ⟨by decide,
   C4_subscribe_invalid_line_noop sampleState pin16 true false (some 1) 2 (by decide)⟩

/-- C6: when the dispatcher is invoked for a line whose hardware pending flag
is not set, it returns with the state untouched (no flag cleared, no slot
read) and invokes no callback: the log records only the poll. -/
theorem C6_dispatch_not_pending_noop (s : GpioState) (n : Nat)
    (h : s.exti.pr.testBit n = false) :
    maybe_handle s n = (s, [DispatchEvent.polled n]) :=
  maybe_handle_not_pending s n h

theorem C6_dispatch_not_pending_noop_witness :
    (sampleState.exti.pr.testBit 5 = false) ∧
    maybe_handle sampleState 5 = (sampleState, [DispatchEvent.polled 5]) :=
  ⟨by decide, C6_dispatch_not_pending_noop sampleState 5 (by decide)⟩

/-- C9: when `subscribe` fails because the line's slot is already owned (the
compare-exchange fails), it returns `false` before any register write: the
routing register, trigger/mask registers, pending flag, and the slot's
owner/callback/context are all exactly as before the call. -/
theorem C9_subscribe_busy_failure_atomic (s : GpioState) (g : Stm32Gpio)
    (r f : Bool) (cb : Option Nat) (c : Nat) (q : Nat)
    (hown : (s.subs g.pin_number).port = some q) :
    subscribe s g r f cb c = (false, s) :=
  subscribe_of_port_ne_none s g r f cb c (by rw [hown]; simp)

theorem C9_subscribe_busy_failure_atomic_witness :
    ((subscribedA3.subs pinB3.pin_number).port = some 0) ∧
    subscribe subscribedA3 pinB3 false true (some 5) 6 = (false, subscribedA3) :=
  ⟨by decide,
   C9_subscribe_busy_failure_atomic subscribedA3 pinB3 false true (some 5) 6 0 (by decide)⟩

/-- C2 (bug exhibit): `unsubscribe` on the owning pin clears the pending
flag and releases the slot, but the line's `EXTI->IMR` bit is STILL SET
afterwards — the source executes `EXTI->IMR |= pin_mask_` (stm32_gpio.cpp
line 173), which enables (unmasks) interrupt generation for the line instead
of masking it, contradicting both the claim and the source's own comment
"At this point no more interrupts will be triggered for this GPIO". -/
theorem C2_unsubscribe_leaves_line_unmasked :
    ((unsubscribe subscribedA3 pinA3).exti.imr.testBit 3 = true) ∧
    ((unsubscribe subscribedA3 pinA3).exti.pr.testBit 3 = false) ∧
    ((unsubscribe subscribedA3 pinA3).subs 3 =
      { port := none, callback := none, ctx := 0 }) := by
  decide

/-- C5: `unsubscribe` never fails and is idempotent: on an invalid line or a
slot whose owner is not the pin's port it changes nothing at all (no slot,
no register); running it twice in a row equals running it once; and its
subscription table differs from the original at most at its own line. -/
theorem C5_unsubscribe_idempotent (s : GpioState) (g : Stm32Gpio) :
    (g.pin_number ≥ N_EXTI ∨ (s.subs g.pin_number).port ≠ g.port →
      unsubscribe s g = s) ∧
    unsubscribe (unsubscribe s g) g = unsubscribe s g ∧
    (unsubscribe s g).subs =
      Function.update s.subs g.pin_number ((unsubscribe s g).subs g.pin_number) := by
  refine ⟨unsubscribe_noop s g, ?_, ?_⟩
  · by_cases hn : g.pin_number ≥ N_EXTI
    · rw [unsubscribe_noop s g (Or.inl hn), unsubscribe_noop s g (Or.inl hn)]
    · by_cases hmatch : (s.subs g.pin_number).port = g.port
      · rw [unsubscribe_active s g hn hmatch]
        by_cases hport : g.port = none
        · rw [unsubscribe_active _ g hn (by simp [Function.update_same, hport])]
          simp [Function.update_idem, Function.update_same,
            lor_lor_self, land_land_self]
        · rw [unsubscribe_noop _ g (Or.inr (by
            simp [Function.update_same]
            exact fun hh => hport hh.symm))]
      · rw [unsubscribe_noop s g (Or.inr hmatch), unsubscribe_noop s g (Or.inr hmatch)]
  · by_cases hn : g.pin_number ≥ N_EXTI
    · rw [unsubscribe_noop s g (Or.inl hn), Function.update_eq_self]
    · by_cases hmatch : (s.subs g.pin_number).port = g.port
      · rw [unsubscribe_active s g hn hmatch]
        simp [Function.update_same]
      · rw [unsubscribe_noop s g (Or.inr hmatch), Function.update_eq_self]

theorem C5_unsubscribe_idempotent_witness :
    (unsubscribe sampleState pinB3 = sampleState) ∧
    unsubscribe (unsubscribe subscribedA3 pinA3) pinA3 =
      unsubscribe subscribedA3 pinA3 :=
  ⟨(C5_unsubscribe_idempotent sampleState pinB3).1 (Or.inr (by decide)),
   (C5_unsubscribe_idempotent subscribedA3 pinA3).2.1⟩

/-- C3: once the owning pin's `unsubscribe` has returned, no subsequent
sequence of hardware events and dispatches — with no new `subscribe` —
invokes any callback for that line, in particular not the one bound by the
preceding `subscribe`, no matter how many events are delivered. -/
theorem C3_no_dispatch_after_unsubscribe (s : GpioState) (g : Stm32Gpio)
    (ops : List GpioOp)
    (hn : g.pin_number < N_EXTI)
    (hmatch : (s.subs g.pin_number).port = g.port) :
    ((invokedCalls (runOps (unsubscribe s g) ops).2).all
      fun t => t.1 != g.pin_number) = true := by
  have hnone : ((unsubscribe s g).subs g.pin_number).callback = none := by
    rw [unsubscribe_active s g (by omega) hmatch]
    simp [Function.update_same]
  have h := runOps_no_calls_on_dead_line g.pin_number ops (unsubscribe s g) hnone
  rw [List.all_eq_true]
  intro t ht
  simpa [bne_iff_ne] using h t ht

theorem C3_no_dispatch_after_unsubscribe_witness :
    (pinA3.pin_number < N_EXTI) ∧
    ((subscribedA3.subs pinA3.pin_number).port = pinA3.port) ∧
    ((invokedCalls (runOps (unsubscribe subscribedA3 pinA3) opsSample).2).all
      fun t => t.1 != pinA3.pin_number) = true :=
  ⟨by decide, by decide,
   C3_no_dispatch_after_unsubscribe subscribedA3 pinA3 opsSample
     (by decide) (by decide)⟩

/-- Trigger programming never touches the subscription table. -/
lemma writeRtsr_subs (g : Stm32Gpio) (b : Bool) (s : GpioState) :
    (writeRtsr g b s).subs = s.subs := by
  cases b <;> rfl

lemma writeFtsr_subs (g : Stm32Gpio) (b : Bool) (s : GpioState) :
    (writeFtsr g b s).subs = s.subs := by
  cases b <;> rfl

/-- C8: after a successful `subscribe`, the line's rising-edge trigger bit
equals `rising_edge` and its falling-edge trigger bit equals `falling_edge`
— the two flags set independently — and no other line's trigger bits are
modified. -/
theorem C8_edge_trigger_programming (s : GpioState) (g : Stm32Gpio)
    (r f : Bool) (cb : Option Nat) (c : Nat)
    (hn : g.pin_number < N_EXTI) (hfree : (s.subs g.pin_number).port = none) :
    (subscribe s g r f cb c).1 = true ∧
    (subscribe s g r f cb c).2.exti.rtsr.testBit g.pin_number = r ∧
    (subscribe s g r f cb c).2.exti.ftsr.testBit g.pin_number = f ∧
    ((List.range N_EXTI).all fun m =>
      (m == g.pin_number) ||
      (((subscribe s g r f cb c).2.exti.rtsr.testBit m == s.exti.rtsr.testBit m) &&
       ((subscribe s g r f cb c).2.exti.ftsr.testBit m == s.exti.ftsr.testBit m))) = true := by
  have hN : N_EXTI = 16 := rfl
  have hge : ¬ g.pin_number ≥ N_EXTI := by omega
  have h1 : (subscribe s g r f cb c).1 = true := by
    rw [subscribe_of_free s g r f cb c hge hfree]
  have h2 : (subscribe s g r f cb c).2 =
      runActs (casClaim g s) (subscribeActions g r f cb c) := by
    rw [subscribe_of_free s g r f cb c hge hfree]
  have h32 : g.pin_number < 32 := by omega
  refine ⟨h1, ?_, ?_, ?_⟩
  · rw [h2, runActs_subscribeActions]
    cases r
    · simp [Stm32Gpio.pin_mask, testBit_and_compl32_self _ _ h32]
    · simp [Stm32Gpio.pin_mask, testBit_or_shift_self]
  · rw [h2, runActs_subscribeActions]
    cases f
    · simp [Stm32Gpio.pin_mask, testBit_and_compl32_self _ _ h32]
    · simp [Stm32Gpio.pin_mask, testBit_or_shift_self]
  · rw [List.all_eq_true]
    intro m hm
    rw [List.mem_range] at hm
    by_cases hmn : m = g.pin_number
    · simp [hmn]
    · have hm32 : m < 32 := by omega
      rw [h2, runActs_subscribeActions]
      cases r <;> cases f <;>
        simp [Stm32Gpio.pin_mask, hmn,
          testBit_and_compl32_of_ne _ _ _ hmn hm32,
          testBit_or_shift_of_ne _ _ _ hmn]

theorem C8_edge_trigger_programming_witness :
    (subscribe sampleState pinA3 true false (some 42) 7).1 = true ∧
    (subscribe sampleState pinA3 true false (some 42) 7).2.exti.rtsr.testBit
      pinA3.pin_number = true ∧
    (subscribe sampleState pinA3 true false (some 42) 7).2.exti.ftsr.testBit
      pinA3.pin_number = false ∧
    ((List.range N_EXTI).all fun m =>
      (m == pinA3.pin_number) ||
      (((subscribe sampleState pinA3 true false (some 42) 7).2.exti.rtsr.testBit m ==
          sampleState.exti.rtsr.testBit m) &&
       ((subscribe sampleState pinA3 true false (some 42) 7).2.exti.ftsr.testBit m ==
          sampleState.exti.ftsr.testBit m))) = true :=
  C8_edge_trigger_programming sampleState pinA3 true false (some 42) 7
    (by decide) (by decide)

/-- Appending a poll-only event leaves the invocation list unchanged. -/
lemma invokedCalls_cons_polled (n : Nat) (l : List DispatchEvent) :
    invokedCalls (DispatchEvent.polled n :: l) = invokedCalls l := rfl

/-- An invocation event contributes its triple to the invocation list. -/
lemma invokedCalls_cons_invoked (n cb ctx : Nat) (l : List DispatchEvent) :
    invokedCalls (DispatchEvent.invoked n cb ctx :: l) =
      (n, cb, ctx) :: invokedCalls l := rfl

/-- A poll-only log has no invocations. -/
lemma invokedCalls_map_polled (lines : List Nat) :
    invokedCalls (lines.map DispatchEvent.polled) = [] := by
  induction lines with
  | nil => rfl
  | cons n rest ih => rw [List.map_cons, invokedCalls_cons_polled, ih]

/-- A dispatcher run over lines none of which are pending leaves the state
untouched and only logs the polls. -/
lemma runLines_none_pending (s : GpioState) (lines : List Nat)
    (h : ∀ i ∈ lines, s.exti.pr.testBit i = false) :
    runLines s lines = (s, lines.map DispatchEvent.polled) := by
  induction lines with
  | nil => rfl
  | cons n rest ih =>
    have e := maybe_handle_not_pending s n (h n (by simp))
    have e2 := ih (fun i hi => h i (by simp [hi]))
    simp [runLines, e, e2]

/-- A dispatcher run over duplicate-free valid lines among which exactly one
line `j` is pending invokes exactly line `j`'s bound callback, with its
stored context. -/
lemma runLines_single_pending (lines : List Nat) (j cb : Nat) (s : GpioState)
    (hnodup : lines.Nodup)
    (hlt : ∀ i ∈ lines, i < N_EXTI)
    (hmem : j ∈ lines)
    (hj : s.exti.pr.testBit j = true)
    (hothers : ∀ i ∈ lines, i ≠ j → s.exti.pr.testBit i = false)
    (hcb : (s.subs j).callback = some cb) :
    invokedCalls (runLines s lines).2 = [(j, cb, (s.subs j).ctx)] := by
  induction lines generalizing s with
  | nil => cases hmem
  | cons n rest ih =>
    by_cases hnj : n = j
    · subst hnj
      have hnlt : n < N_EXTI := hlt n (by simp)
      have e := maybe_handle_pending_cb s n cb (by omega) hj hcb
      have hrest : ∀ i ∈ rest,
          (clearPendingIt s (1 <<< n)).exti.pr.testBit i = false := by
        intro i hi
        have hne : i ≠ n := by
          intro hin
          rw [hin] at hi
          exact (List.nodup_cons.mp hnodup).1 hi
        have hi32 : i < 32 := by
          have h16 := hlt i (List.mem_cons_of_mem n hi)
          have hN : N_EXTI = 16 := rfl
          omega
        show (s.exti.pr &&& compl32 (1 <<< n)).testBit i = false
        rw [testBit_and_compl32_of_ne s.exti.pr n i hne hi32]
        exact hothers i (List.mem_cons_of_mem n hi) hne
      have e2 := runLines_none_pending (clearPendingIt s (1 <<< n)) rest hrest
      simp [runLines, e, e2, invokedCalls_append, invokedCalls_map_polled,
        invokedCalls_cons_polled, invokedCalls_cons_invoked]
    · have hnp : s.exti.pr.testBit n = false := hothers n (by simp) hnj
      have e := maybe_handle_not_pending s n hnp
      have hmem' : j ∈ rest := by
        rcases List.mem_cons.mp hmem with h | h
        · exact absurd h.symm hnj
        · exact h
      have hrec := ih s (List.nodup_cons.mp hnodup).2
        (fun i hi => hlt i (List.mem_cons_of_mem n hi)) hmem' hj
        (fun i hi hne => hothers i (List.mem_cons_of_mem n hi) hne) hcb
      simp [runLines, e, invokedCalls_append, invokedCalls_cons_polled, hrec]

/-- C7: each shared entry point polls exactly the lines of its group, once
each and in order (5-9 for the first, 10-15 for the second), and whenever a
single line `j` is the only pending line within its group, that entry
invokes exactly line `j`'s bound callback with its stored context and no
other line's callback. -/
theorem C7_grouped_dispatch_selective (s : GpioState) (j cb : Nat)
    (hj : s.exti.pr.testBit j = true)
    (hcb : (s.subs j).callback = some cb) :
    polledLines (EXTI9_5_IRQHandler s).2 = [5, 6, 7, 8, 9] ∧
    polledLines (EXTI15_10_IRQHandler s).2 = [10, 11, 12, 13, 14, 15] ∧
    (j ∈ [5, 6, 7, 8, 9] →
      (∀ i ∈ [5, 6, 7, 8, 9], i ≠ j → s.exti.pr.testBit i = false) →
      invokedCalls (EXTI9_5_IRQHandler s).2 = [(j, cb, (s.subs j).ctx)]) ∧
    (j ∈ [10, 11, 12, 13, 14, 15] →
      (∀ i ∈ [10, 11, 12, 13, 14, 15], i ≠ j → s.exti.pr.testBit i = false) →
      invokedCalls (EXTI15_10_IRQHandler s).2 = [(j, cb, (s.subs j).ctx)]) := by
  refine ⟨polledLines_runLines s _, polledLines_runLines s _, ?_, ?_⟩
  · intro hmem hothers
    exact runLines_single_pending [5, 6, 7, 8, 9] j cb s
      (by decide) (by decide) hmem hj hothers hcb
  · intro hmem hothers
    exact runLines_single_pending [10, 11, 12, 13, 14, 15] j cb s
      (by decide) (by decide) hmem hj hothers hcb

theorem C7_grouped_dispatch_selective_witness :
    (stateC7.exti.pr.testBit 7 = true) ∧
    ((stateC7.subs 7).callback = some 55) ∧
    polledLines (EXTI9_5_IRQHandler stateC7).2 = [5, 6, 7, 8, 9] ∧
    polledLines (EXTI15_10_IRQHandler stateC7).2 = [10, 11, 12, 13, 14, 15] ∧
    invokedCalls (EXTI9_5_IRQHandler stateC7).2 = [(7, 55, (stateC7.subs 7).ctx)] ∧
    invokedCalls (EXTI15_10_IRQHandler stateC12).2 =
      [(12, 66, (stateC12.subs 12).ctx)] :=
  ⟨by decide, by decide,
   (C7_grouped_dispatch_selective stateC7 7 55 (by decide) (by decide)).1,
   (C7_grouped_dispatch_selective stateC7 7 55 (by decide) (by decide)).2.1,
   (C7_grouped_dispatch_selective stateC7 7 55 (by decide) (by decide)).2.2.1
     (by decide) (by decide),
   (C7_grouped_dispatch_selective stateC12 12 66 (by decide) (by decide)).2.2.2
     (by decide) (by decide)⟩

/-- C10: in `subscribe`'s post-claim statement sequence the context store
(action index 6) runs strictly before the callback store (index 7), and both
run after all register programming and the stale-pending clear (indices
0-5).  Hence: at every proper prefix of the sequence the slot's callback is
still null and a dispatch preempting `subscribe` there invokes nothing
(drops the event); when the callback store runs the context already equals
the supplied one; the registers are already final before either store; and
the completed run exposes the supplied callback with its own context. -/
theorem C10_ctx_stored_before_callback (s : GpioState) (g : Stm32Gpio)
    (r f : Bool) (cb : Option Nat) (c : Nat)
    (hn : g.pin_number < N_EXTI)
    (hport : (s.subs g.pin_number).port = none)
    (hcb : (s.subs g.pin_number).callback = none) :
    ((List.range 8).all fun k =>
      ((((subscribePrefix s g r f cb c k).subs g.pin_number).callback == none) &&
       (invokedCalls (maybe_handle (subscribePrefix s g r f cb c k)
          g.pin_number).2 == []))) = true ∧
    ((subscribePrefix s g r f cb c 7).subs g.pin_number).ctx = c ∧
    (subscribePrefix s g r f cb c 6).exti = (subscribePrefix s g r f cb c 8).exti ∧
    (subscribePrefix s g r f cb c 6).exticr =
      (subscribePrefix s g r f cb c 8).exticr ∧
    subscribe s g r f cb c = (true, subscribePrefix s g r f cb c 8) ∧
    (subscribePrefix s g r f cb c 8).subs g.pin_number =
      { port := g.port, callback := cb, ctx := c } := by
  have hsubs : ∀ k, k ≤ 6 → (subscribePrefix s g r f cb c k).subs =
      Function.update s.subs g.pin_number
        { s.subs g.pin_number with port := g.port } := by
    intro k hk
    interval_cases k <;>
      simp [subscribePrefix, subscribeActions, runActs, List.take, List.foldl,
        clearPendingIt, setImr, clearEmr, writeFtsr_subs, writeRtsr_subs,
        writeExticr, casClaim, GpioState.setSlot]
  have hsub7 : (subscribePrefix s g r f cb c 7).subs =
      Function.update s.subs g.pin_number
        { port := g.port, callback := (s.subs g.pin_number).callback, ctx := c } := by
    have e7 : subscribePrefix s g r f cb c 7 =
        storeCtx g c (subscribePrefix s g r f cb c 6) := rfl
    rw [e7]
    simp [storeCtx, GpioState.setSlot, hsubs 6 (by omega),
      Function.update_idem, Function.update_same]
  have hsub8 : (subscribePrefix s g r f cb c 8).subs =
      Function.update s.subs g.pin_number
        { port := g.port, callback := cb, ctx := c } := by
    have e8 : subscribePrefix s g r f cb c 8 =
        storeCallback g cb (subscribePrefix s g r f cb c 7) := rfl
    rw [e8]
    simp [storeCallback, GpioState.setSlot, hsub7,
      Function.update_idem, Function.update_same]
  refine ⟨?_, ?_, ?_, ?_, ?_, ?_⟩
  · rw [List.all_eq_true]
    intro k hk
    rw [List.mem_range] at hk
    have hknone : ((subscribePrefix s g r f cb c k).subs
        g.pin_number).callback = none := by
      by_cases h7 : k = 7
      · rw [h7, hsub7]
        simp [Function.update_same]
        exact hcb
      · rw [hsubs k (by omega)]
        simp [Function.update_same]
        exact hcb
    simp [hknone, maybe_handle_no_invoke _ _ hknone]
  · rw [hsub7]
    simp [Function.update_same]
  · rfl
  · rfl
  · rw [subscribe_of_free s g r f cb c (by omega) hport]
    rfl
  · rw [hsub8]
    simp [Function.update_same]

theorem C10_ctx_stored_before_callback_witness :
    ((List.range 8).all fun k =>
      ((((subscribePrefix sampleState pinA3 true false (some 42) 7 k).subs
          pinA3.pin_number).callback == none) &&
       (invokedCalls (maybe_handle
          (subscribePrefix sampleState pinA3 true false (some 42) 7 k)
          pinA3.pin_number).2 == []))) = true ∧
    ((subscribePrefix sampleState pinA3 true false (some 42) 7 7).subs
        pinA3.pin_number).ctx = 7 ∧
    (subscribePrefix sampleState pinA3 true false (some 42) 7 6).exti =
      (subscribePrefix sampleState pinA3 true false (some 42) 7 8).exti ∧
    (subscribePrefix sampleState pinA3 true false (some 42) 7 6).exticr =
      (subscribePrefix sampleState pinA3 true false (some 42) 7 8).exticr ∧
    subscribe sampleState pinA3 true false (some 42) 7 =
      (true, subscribePrefix sampleState pinA3 true false (some 42) 7 8) ∧
    (subscribePrefix sampleState pinA3 true false (some 42) 7 8).subs
        pinA3.pin_number =
      { port := pinA3.port, callback := some 42, ctx := 7 } :=
  C10_ctx_stored_before_callback sampleState pinA3 true false (some 42) 7
    (by decide) (by decide) (by decide)
